import Mathlib

/-!
Verification development for the droidrun phone-chat command interpreter.

The definitions below are a shallow embedding of the Python sources
`chat-phone.py` and `test-command.py`: the app-name resolver
(`find_app_package`), the action-keyword classification, and the
action-dispatch chain of `main`, with the device backend modelled as an
explicit collaborator record whose operations may fail.  Python strings are
modelled as Lean strings with hand-rolled, kernel-reducible helpers that
mirror the Python semantics used by the code (`str.lower` on ASCII,
`str.strip`, `in` substring test, `str.startswith`, `str.split`,
`int(...)` parsing).
-/

/-- ASCII lower-casing of a string, mirroring what `str.lower()` does on the
inputs this program compares (all registry keys are already lower-case,
including the Vietnamese ones, which contain no ASCII upper-case letters). -/
def pyLower (s : String) : String := ⟨s.data.map Char.toLower⟩

/-- Leading/trailing-whitespace strip, mirroring `str.strip()`. -/
def pyStrip (s : String) : String :=
  ⟨((s.data.dropWhile Char.isWhitespace).reverse.dropWhile Char.isWhitespace).reverse⟩

/-- Whether the first list is a prefix of the second (character lists). -/
def strPrefOf : List Char → List Char → Bool
  | [], _ => true
  | _ :: _, [] => false
  | a :: as, b :: bs => a == b && strPrefOf as bs

/-- Whether `needle` occurs as a contiguous run inside `hay` (character lists). -/
def strInfAux (needle : List Char) : List Char → Bool
  | [] => needle.isEmpty
  | c :: rest => strPrefOf needle (c :: rest) || strInfAux needle rest

/-- Python `needle in hay` substring test.  The empty needle is contained in
every string, exactly as in Python. -/
def strContains (hay needle : String) : Bool := strInfAux needle.data hay.data

/-- Python `s.startswith(pre)`. -/
def strStarts (s pre : String) : Bool := strPrefOf pre.data s.data

/-- String equality as a boolean (via the character lists). -/
def strEq (a b : String) : Bool := a.data == b.data

/-- Helper for `pySplitWs`: split a character list on whitespace, dropping
empty fields, accumulating the current word reversed. -/
def splitWsAux : List Char → List Char → List String
  | [], acc => if acc.isEmpty then [] else [⟨acc.reverse⟩]
  | c :: cs, acc =>
    if c.isWhitespace then
      if acc.isEmpty then splitWsAux cs [] else ⟨acc.reverse⟩ :: splitWsAux cs []
    else splitWsAux cs (c :: acc)

/-- Python `s.split()`: split on whitespace runs, no empty fields. -/
def pySplitWs (s : String) : List String := splitWsAux s.data []

/-- Helper for `splitFirstSpace`. -/
def splitFirstSpaceAux : List Char → List Char → String × String
  | [], acc => (⟨acc.reverse⟩, "")
  | c :: cs, acc => if c == ' ' then (⟨acc.reverse⟩, ⟨cs⟩) else splitFirstSpaceAux cs (c :: acc)

/-- Python `s.split(" ", 1)` packaged as (head, rest); when there is no space
the rest is empty (callers guard with a containment check first, as the
Python code does). -/
def splitFirstSpace (s : String) : String × String := splitFirstSpaceAux s.data []

/-- Value of a digit run, most significant first. -/
def digitsVal : List Char → Nat → Nat
  | [], acc => acc
  | c :: cs, acc => digitsVal cs (acc * 10 + (c.toNat - 48))

/-- Parse a non-empty all-digit character list. -/
def parseDigits (ds : List Char) : Option Nat :=
  if !ds.isEmpty && ds.all Char.isDigit then some (digitsVal ds 0) else none

/-- Python `int(s)` on the strings this program feeds it: optional sign,
decimal digits, surrounding whitespace allowed; `none` models the
`ValueError` raised on anything else. -/
def parseIntPy (s : String) : Option Int :=
  match (pyStrip s).data with
  | '-' :: ds => (parseDigits ds).map (fun n => -(n : Int))
  | '+' :: ds => (parseDigits ds).map (fun n => (n : Int))
  | ds => (parseDigits ds).map (fun n => (n : Int))

/-- Membership of a string in a list, as the boolean Python `in` test. -/
def pyListContains (l : List String) (x : String) : Bool := l.any (fun a => strEq a x)

/-- Python `dict.get`-style association lookup (first binding wins; the
source dictionaries have distinct keys). -/
def pyDictGet (m : List (String × String)) (k : String) : Option String :=
  match m with
  | [] => none
  | (a, b) :: rest => if strEq a k then some b else pyDictGet rest k

/-- One UI element as the code consumes it: a Python dict read through
`e.get(key, default)`, so every field is optional and each read site applies
its own default. -/
structure UiElem where
  index : Option Int := none
  text : Option String := none
  className : Option String := none
  resourceId : Option String := none
  contentDescription : Option String := none
  x : Option Int := none
  y : Option Int := none

/-- `e.get('index', 0)`. -/
def UiElem.getIndex (e : UiElem) : Int := e.index.getD 0

/-- `e.get('text', '')`. -/
def UiElem.getText (e : UiElem) : String := e.text.getD ""

/-- `e.get('className', '')`. -/
def UiElem.getClassName (e : UiElem) : String := e.className.getD ""

/-- `e.get('resourceId', '')`. -/
def UiElem.getResourceId (e : UiElem) : String := e.resourceId.getD ""

/-- `e.get('contentDescription', '') or e.get('text', '')` — Python `or`
falls through to the text when the description is empty or missing. -/
def UiElem.getDesc (e : UiElem) : String :=
  let c := e.contentDescription.getD ""
  if strEq c ("") then e.text.getD "" else c

/-- One screen snapshot as returned by `tools.get_state()` (the raw XML and
memory note are never inspected by the dispatch logic and are omitted). -/
structure Snapshot where
  currentApp : String
  elements : List UiElem

/-- One device-backend call, recorded in execution order. -/
inductive DevCall where
  | tap (idx : Int)
  | back
  | pressKey (code : Int)
  | inputText (text : String)
  | inputTextAt (text : String) (idx : Int) (clear : Bool)
  | swipe (x1 y1 x2 y2 durationMs : Int)
  | startApp (pkg : String)
  | getState
deriving DecidableEq

/-- The device collaborator: each operation flag tells whether that call
succeeds (`true`) or raises (`false`); `states` scripts the snapshots
returned by successive `get_state` re-fetches within one turn. -/
structure Device where
  tapOk : Int → Bool
  backOk : Bool
  pressKeyOk : Int → Bool
  inputTextOk : String → Bool
  inputTextAtOk : String → Int → Bool → Bool
  swipeOk : Int → Int → Int → Int → Int → Bool
  startAppOk : String → Bool
  states : Nat → Snapshot

/-- Outcome of dispatching one model reply: the device calls issued (in
order, including a call that raised), the status lines printed, and whether
an exception escaped the dispatch code (which would terminate the session
loop). -/
structure ExecResult where
  trace : List DevCall
  prints : List String
  crashed : Bool
deriving DecidableEq

/-- An empty snapshot, for scripting. -/
def emptySnap : Snapshot := ⟨"", []⟩

/-- A device whose every operation succeeds, with scripted snapshots. -/
def allOkDev (states : Nat → Snapshot) : Device :=
  ⟨fun _ => true, true, fun _ => true, fun _ => true, fun _ _ _ => true,
   fun _ _ _ _ _ => true, fun _ => true, states⟩

/-- A fully successful device returning empty snapshots. -/
def devOk : Device := allOkDev (fun _ => emptySnap)

/-- The static app registry of `chat-phone.py` (`APP_PACKAGES`), in source
order; Python dicts iterate in insertion order, which the partial-match step
of the resolver depends on. -/
def APP_PACKAGES : List (String × String) := [
  ("tiktok", "com.ss.android.ugc.trill"),
  ("tik tok", "com.ss.android.ugc.trill"),
  ("facebook", "com.facebook.katana"),
  ("fb", "com.facebook.katana"),
  ("instagram", "com.instagram.android"),
  ("insta", "com.instagram.android"),
  ("zalo", "com.zing.zalo"),
  ("messenger", "com.facebook.orca"),
  ("whatsapp", "com.whatsapp"),
  ("telegram", "org.telegram.messenger"),
  ("twitter", "com.twitter.android"),
  ("x", "com.twitter.android"),
  ("threads", "com.instagram.barcelona"),
  ("snapchat", "com.snapchat.android"),
  ("youtube", "com.google.android.youtube"),
  ("yt", "com.google.android.youtube"),
  ("youtube music", "com.google.android.apps.youtube.music"),
  ("gmail", "com.google.android.gm"),
  ("chrome", "com.android.chrome"),
  ("maps", "com.google.android.apps.maps"),
  ("google maps", "com.google.android.apps.maps"),
  ("photos", "com.google.android.apps.photos"),
  ("google photos", "com.google.android.apps.photos"),
  ("drive", "com.google.android.apps.docs"),
  ("google drive", "com.google.android.apps.docs"),
  ("calendar", "com.google.android.calendar"),
  ("keep", "com.google.android.keep"),
  ("settings", "com.android.settings"),
  ("cài đặt", "com.android.settings"),
  ("camera", "com.android.camera"),
  ("máy ảnh", "com.android.camera"),
  ("phone", "com.android.dialer"),
  ("điện thoại", "com.android.dialer"),
  ("messages", "com.android.messaging"),
  ("tin nhắn", "com.android.messaging"),
  ("contacts", "com.android.contacts"),
  ("danh bạ", "com.android.contacts"),
  ("calculator", "com.android.calculator2"),
  ("máy tính", "com.android.calculator2"),
  ("clock", "com.android.deskclock"),
  ("đồng hồ", "com.android.deskclock"),
  ("files", "com.android.documentsui"),
  ("shopee", "com.shopee.vn"),
  ("lazada", "com.lazada.android"),
  ("grab", "com.grabtaxi.passenger"),
  ("gojek", "com.gojek.app"),
  ("momo", "com.mservice.momotransfer"),
  ("vnpay", "com.vnpay.merchant"),
  ("vcb", "com.VCB"),
  ("vietcombank", "com.VCB"),
  ("techcombank", "vn.com.techcombank.bb.app"),
  ("binance", "com.binance.dev"),
  ("spotify", "com.spotify.music"),
  ("netflix", "com.netflix.mediaclient"),
  ("disney", "com.disney.disneyplus"),
  ("notion", "notion.id"),
  ("slack", "com.Slack"),
  ("zoom", "us.zoom.videomeetings"),
  ("teams", "com.microsoft.teams")]

/-- Step 2 of the resolver (the partial-match loop over the registry): the
first entry whose name contains the query or is contained in it AND whose
package passes the installed filter; an entry matching by name but failing
the installed filter is skipped, not a terminal miss. -/
def resolveStep2 (q : String) (installed : List String) : Option String :=
  APP_PACKAGES.findSome? (fun np =>
    if (strContains np.1 q || strContains q np.1) &&
       (installed.isEmpty || pyListContains installed np.2) then some np.2 else none)

/-- Step 3 of the resolver: substring scan over the installed packages. -/
def resolveStep3 (q : String) (installed : List String) : Option String :=
  installed.findSome? (fun pkg =>
    if strContains (pyLower pkg) q then some pkg else none)

/-- `find_app_package` of `chat-phone.py` (lines 113-135): exact registry
match filtered by the installed set, then the partial-match loop
(`resolveStep2`), then the installed-package substring scan (`resolveStep3`).
An empty installed set degrades to unfiltered matching. -/
def find_app_package (appName : String) (installed : List String) : Option String :=
  let q := pyStrip (pyLower appName)
  match pyDictGet APP_PACKAGES q with
  | some pkg =>
    if installed.isEmpty || pyListContains installed pkg then some pkg
    else
      match resolveStep2 q installed with
      | some pkg2 => some pkg2
      | none => resolveStep3 q installed
  | none =>
    match resolveStep2 q installed with
    | some pkg2 => some pkg2
    | none => resolveStep3 q installed

/-- Argument extraction used by the `open_app`, `input_text`, `search` and
`select_tab` branches: `reply.split(" ", 1)[1] if " " in reply else ""`,
preserving the original casing of the argument. -/
def argOf (reply : String) : String :=
  if strContains reply (" ") then (splitFirstSpace reply).2 else ""

/-- The fixed action keyword vocabulary of `chat-phone.py`, in source order. -/
def actionKeywords : List String :=
  ["open_app", "start_app", "tap", "tap_video", "back", "home", "input_text",
   "swipe", "scroll", "long_press", "search", "select_tab", "open_comments",
   "close_comments"]

/-- `is_action`: the lower-cased reply starts with one of the keywords. -/
def isActionReply (reply : String) : Bool :=
  actionKeywords.any (fun kw => strStarts (pyLower reply) kw)

/-- Core of the `open_app`/`start_app` branch; the whole branch catches its
collaborator exceptions, so it is assembled with `crashed := false`. -/
def openAppCore (reply currentApp : String) (installed : List String) (dev : Device) :
    List DevCall × List String :=
  let appName := argOf reply
  match find_app_package appName installed with
  | some pkg =>
    if strContains currentApp pkg then
      ([], ["Already in " ++ appName ++ " (" ++ pkg ++ ")"])
    else if dev.startAppOk pkg then
      ([DevCall.startApp pkg], ["Opened " ++ appName ++ " (" ++ pkg ++ ")"])
    else
      ([DevCall.startApp pkg], ["Failed to open " ++ appName])
  | none =>
    if dev.startAppOk appName then
      ([DevCall.startApp appName], ["Opened " ++ appName])
    else
      ([DevCall.startApp appName], ["App " ++ appName ++ " not found"])

/-- The `open_app`/`start_app` dispatch branch (lines 308-331): resolver hit
that matches the current app short-circuits; otherwise launch, with both the
launch and the literal-package fallback wrapped in try/except. -/
def openAppBranch (reply currentApp : String) (installed : List String) (dev : Device) :
    ExecResult :=
  ⟨(openAppCore reply currentApp installed dev).1,
   (openAppCore reply currentApp installed dev).2, false⟩

/-- The `tap` dispatch branch (lines 333-339): parse the index with
`int(reply.split()[1])`; IndexError/ValueError are caught as an invalid
command; the device tap itself is not guarded against other exceptions. -/
def tapBranch (reply : String) (dev : Device) : ExecResult :=
  match (pySplitWs reply).get? 1 with
  | none => ⟨[], ["Invalid tap command"], false⟩
  | some w =>
    match parseIntPy w with
    | none => ⟨[], ["Invalid tap command"], false⟩
    | some i =>
      if dev.tapOk i then ⟨[DevCall.tap i], ["Tapped element " ++ toString i], false⟩
      else ⟨[DevCall.tap i], [], true⟩

/-- The `back` dispatch branch (lines 341-343): an unguarded device call. -/
def backBranch (dev : Device) : ExecResult :=
  if dev.backOk then ⟨[DevCall.back], ["Pressed back"], false⟩
  else ⟨[DevCall.back], [], true⟩

/-- The `home` dispatch branch (lines 345-347): unguarded `press_key(3)`. -/
def homeBranch (dev : Device) : ExecResult :=
  if dev.pressKeyOk 3 then ⟨[DevCall.pressKey 3], ["Pressed home"], false⟩
  else ⟨[DevCall.pressKey 3], [], true⟩

/-- The `input_text` dispatch branch (lines 349-352): unguarded device call. -/
def inputTextBranch (reply : String) (dev : Device) : ExecResult :=
  let text := argOf reply
  if dev.inputTextOk text then ⟨[DevCall.inputText text], ["Typed: " ++ text], false⟩
  else ⟨[DevCall.inputText text], [], true⟩

/-- The `swipe`/`scroll` dispatch branch (lines 354-372): the direction token
is looked for anywhere in the lower-cased reply; the gesture distance is
`SCREEN_HEIGHT // 3` for every direction, horizontal ones included; the
device call is unguarded; an unknown direction is only reported. -/
def swipeBranch (reply : String) (W H : Int) (dev : Device) : ExecResult :=
  let rl := pyLower reply
  let cx := W / 2
  let cy := H / 2
  let distance := H / 3
  if strContains rl ("up") then
    if dev.swipeOk cx (cy + distance) cx (cy - distance) 300 then
      ⟨[DevCall.swipe cx (cy + distance) cx (cy - distance) 300], ["Swiped up"], false⟩
    else ⟨[DevCall.swipe cx (cy + distance) cx (cy - distance) 300], [], true⟩
  else if strContains rl ("down") then
    if dev.swipeOk cx (cy - distance) cx (cy + distance) 300 then
      ⟨[DevCall.swipe cx (cy - distance) cx (cy + distance) 300], ["Swiped down"], false⟩
    else ⟨[DevCall.swipe cx (cy - distance) cx (cy + distance) 300], [], true⟩
  else if strContains rl ("left") then
    if dev.swipeOk (cx + distance) cy (cx - distance) cy 300 then
      ⟨[DevCall.swipe (cx + distance) cy (cx - distance) cy 300], ["Swiped left"], false⟩
    else ⟨[DevCall.swipe (cx + distance) cy (cx - distance) cy 300], [], true⟩
  else if strContains rl ("right") then
    if dev.swipeOk (cx - distance) cy (cx + distance) cy 300 then
      ⟨[DevCall.swipe (cx - distance) cy (cx + distance) cy 300], ["Swiped right"], false⟩
    else ⟨[DevCall.swipe (cx - distance) cy (cx + distance) cy 300], [], true⟩
  else ⟨[], ["Unknown swipe direction"], false⟩

/-- Python sequence indexing `l[i]` with negative-index wrap-around:
`l[i]` is position `i` when `0 ≤ i`, position `len l + i` when negative, and
an IndexError (`none`) when out of range on either side. -/
def pyGet (l : List UiElem) (i : Int) : Option UiElem :=
  if 0 ≤ i then l.get? i.toNat
  else if 0 ≤ (l.length : Int) + i then l.get? ((l.length : Int) + i).toNat
  else none

/-- The `long_press` dispatch branch (lines 374-388): bounds guard
`index < len(elements)`, element fetched by Python sequence indexing (so a
negative index wraps), coordinates default to the screen center, a
zero-displacement 1500 ms drag stands in for a native long press;
IndexError/ValueError are caught, the device gesture is unguarded. -/
def longPressBranch (reply : String) (elements : List UiElem) (W H : Int) (dev : Device) :
    ExecResult :=
  match (pySplitWs reply).get? 1 with
  | none => ⟨[], ["Invalid long_press command"], false⟩
  | some w =>
    match parseIntPy w with
    | none => ⟨[], ["Invalid long_press command"], false⟩
    | some k =>
      if k < (elements.length : Int) then
        match pyGet elements k with
        | some e =>
          let px := e.x.getD (W / 2)
          let py := e.y.getD (H / 2)
          if dev.swipeOk px py px py 1500 then
            ⟨[DevCall.swipe px py px py 1500], ["Long pressed element " ++ toString k], false⟩
          else ⟨[DevCall.swipe px py px py 1500], [], true⟩
        | none => ⟨[], ["Invalid long_press command"], false⟩
      else ⟨[], ["Element " ++ toString k ++ " not found"], false⟩

/-- Search step 1 finder: element text contains a search affordance string
and the class looks like an image or a button. -/
def isSearchAffordance (e : UiElem) : Bool :=
  (strContains (pyLower e.getText) ("tìm kiếm") || strContains (pyLower e.getText) ("search")) &&
  (strContains (pyLower e.getClassName) ("image") || strContains (pyLower e.getClassName) ("button"))

/-- Search step 3 finder: the class indicates a text-input field. -/
def isEditTextField (e : UiElem) : Bool :=
  strContains (pyLower e.getClassName) ("edittext")

/-- Search step 4 finder: a suggestion whose text contains the keyword and
whose class indicates a text layout. -/
def isSuggestionFor (keyword : String) (e : UiElem) : Bool :=
  strContains (pyLower e.getText) (pyLower keyword) &&
  strContains (pyLower e.getClassName) ("textlayout")

/-- Search step 5 finder: a localized submit/search button. -/
def isSubmitSearchButton (e : UiElem) : Bool :=
  strContains (pyLower e.getText) ("tìm kiếm") &&
  strContains (pyLower e.getClassName) ("button")

/-- The multi-round search flow of `chat-phone.py` (lines 396-446), inside
its try/except: tap the first search affordance (fail with a report if none),
re-fetch the snapshot, type the keyword clear-before-type into the first
edit field (silently stop if none), re-fetch again, tap the first matching
suggestion, else fall back to a submit button, else stop silently.  A device
call that raises ends the flow with the `Search failed` diagnostic. -/
def searchCore (keyword : String) (elements : List UiElem) (dev : Device) :
    List DevCall × List String :=
  match elements.find? isSearchAffordance with
  | none => ([], ["Search button not found"])
  | some e =>
    if dev.tapOk e.getIndex then
      match (dev.states 0).elements.find? isEditTextField with
      | none => ([DevCall.tap e.getIndex, DevCall.getState], ["Opened search"])
      | some e2 =>
        if dev.inputTextAtOk keyword e2.getIndex true then
          match (dev.states 1).elements.find? (isSuggestionFor keyword) with
          | some se =>
            if dev.tapOk se.getIndex then
              ([DevCall.tap e.getIndex, DevCall.getState,
                DevCall.inputTextAt keyword e2.getIndex true, DevCall.getState,
                DevCall.tap se.getIndex],
               ["Opened search", "Typed: " ++ keyword, "Selected: " ++ se.getText])
            else
              ([DevCall.tap e.getIndex, DevCall.getState,
                DevCall.inputTextAt keyword e2.getIndex true, DevCall.getState,
                DevCall.tap se.getIndex],
               ["Opened search", "Typed: " ++ keyword, "Search failed"])
          | none =>
            match (dev.states 1).elements.find? isSubmitSearchButton with
            | some sb =>
              if dev.tapOk sb.getIndex then
                ([DevCall.tap e.getIndex, DevCall.getState,
                  DevCall.inputTextAt keyword e2.getIndex true, DevCall.getState,
                  DevCall.tap sb.getIndex],
                 ["Opened search", "Typed: " ++ keyword, "Tapped search button"])
              else
                ([DevCall.tap e.getIndex, DevCall.getState,
                  DevCall.inputTextAt keyword e2.getIndex true, DevCall.getState,
                  DevCall.tap sb.getIndex],
                 ["Opened search", "Typed: " ++ keyword, "Search failed"])
            | none =>
              ([DevCall.tap e.getIndex, DevCall.getState,
                DevCall.inputTextAt keyword e2.getIndex true, DevCall.getState],
               ["Opened search", "Typed: " ++ keyword])
        else
          ([DevCall.tap e.getIndex, DevCall.getState,
            DevCall.inputTextAt keyword e2.getIndex true],
           ["Opened search", "Search failed"])
    else ([DevCall.tap e.getIndex], ["Search failed"])

/-- Keyword extraction and empty-keyword guard around `searchCore`
(lines 390-395). -/
def searchBranchCore (reply : String) (elements : List UiElem) (dev : Device) :
    List DevCall × List String :=
  let keyword := argOf reply
  if strEq keyword ("") then ([], ["No search keyword provided"])
  else
    ((searchCore keyword elements dev).1,
     ("Searching for: " ++ keyword) :: (searchCore keyword elements dev).2)

/-- The `search` dispatch branch: the whole flow runs inside try/except, so
no exception ever escapes it. -/
def searchBranch (reply : String) (elements : List UiElem) (dev : Device) : ExecResult :=
  ⟨(searchBranchCore reply elements dev).1, (searchBranchCore reply elements dev).2, false⟩

/-- Video-thumbnail heuristic of the `tap_video` branch: resource id contains
`sq` and the class contains `FrameLayout` (both case-sensitive in the code). -/
def isVideoThumb (e : UiElem) : Bool :=
  strContains e.getResourceId ("sq") && strContains e.getClassName ("FrameLayout")

/-- The `tap_video` dispatch branch (lines 448-468): count thumbnail matches
in snapshot order and tap the Nth (1-indexed); IndexError/ValueError on the
argument are caught; the device tap is only guarded against those two. -/
def tapVideoBranch (reply : String) (elements : List UiElem) (dev : Device) : ExecResult :=
  match (pySplitWs reply).get? 1 with
  | none => ⟨[], ["Invalid tap_video command"], false⟩
  | some w =>
    match parseIntPy w with
    | none => ⟨[], ["Invalid tap_video command"], false⟩
    | some n =>
      let vids := elements.filter isVideoThumb
      match (if 1 ≤ n then vids.get? (n - 1).toNat else none) with
      | some e =>
        if dev.tapOk e.getIndex then
          ⟨[DevCall.tap e.getIndex],
           ["Tapped video " ++ toString n ++ " (index " ++ toString e.getIndex ++ ")"], false⟩
        else ⟨[DevCall.tap e.getIndex], [], true⟩
      | none =>
        ⟨[], ["Video " ++ toString n ++ " not found (only " ++ toString vids.length ++
              " videos visible)"], false⟩

/-- The `select_tab` dispatch branch (lines 470-486): case-insensitive exact
text match on tab/frame or label classes, first match wins; the tap is
unguarded. -/
def selectTabBranch (reply : String) (elements : List UiElem) (dev : Device) : ExecResult :=
  let tabName := argOf reply
  if strEq tabName ("") then ⟨[], ["No tab name provided"], false⟩
  else
    match elements.find? (fun e =>
        strEq (pyLower e.getText) (pyLower tabName) &&
        (strContains e.getClassName ("FrameLayout") || strContains e.getClassName ("TextView"))) with
    | some e =>
      if dev.tapOk e.getIndex then
        ⟨[DevCall.tap e.getIndex], ["Selected tab: " ++ e.getText], false⟩
      else ⟨[DevCall.tap e.getIndex], [], true⟩
    | none => ⟨[], ["Tab " ++ tabName ++ " not found"], false⟩

/-- The `open_comments` dispatch branch (lines 488-510): two-tier localized
description match; taps are unguarded. -/
def openCommentsBranch (elements : List UiElem) (dev : Device) : ExecResult :=
  match elements.find? (fun e =>
      strContains (pyLower e.getDesc) ("bình luận") && strContains (pyLower e.getDesc) ("đọc")) with
  | some e =>
    if dev.tapOk e.getIndex then ⟨[DevCall.tap e.getIndex], ["Opened comments"], false⟩
    else ⟨[DevCall.tap e.getIndex], [], true⟩
  | none =>
    match elements.find? (fun e =>
        strContains (pyLower e.getDesc) ("comment") || strContains (pyLower e.getDesc) ("bình luận")) with
    | some e =>
      if dev.tapOk e.getIndex then ⟨[DevCall.tap e.getIndex], ["Opened comments"], false⟩
      else ⟨[DevCall.tap e.getIndex], [], true⟩
    | none => ⟨[], ["Comment button not found"], false⟩

/-- The `close_comments` dispatch branch (lines 512-526): explicit close
control first, else a back press; both device calls unguarded. -/
def closeCommentsBranch (elements : List UiElem) (dev : Device) : ExecResult :=
  match elements.find? (fun e =>
      strContains (pyLower e.getDesc) ("đóng") || strContains (pyLower e.getDesc) ("close")) with
  | some e =>
    if dev.tapOk e.getIndex then ⟨[DevCall.tap e.getIndex], ["Closed comments"], false⟩
    else ⟨[DevCall.tap e.getIndex], [], true⟩
  | none =>
    if dev.backOk then ⟨[DevCall.back], ["Closed comments (back)"], false⟩
    else ⟨[DevCall.back], [], true⟩

/-- The elif dispatch chain of `main` in `chat-phone.py` (lines 308-526),
in source order.  Note that the `tap` prefix test precedes the `tap_video`
one, exactly as in the source. -/
def dispatchAction (reply : String) (snap : Snapshot) (installed : List String)
    (dev : Device) (W H : Int) : ExecResult :=
  let rl := pyLower reply
  if strStarts rl ("open_app") || strStarts rl ("start_app") then
    openAppBranch reply snap.currentApp installed dev
  else if strStarts rl ("tap") then tapBranch reply dev
  else if strEq rl ("back") then backBranch dev
  else if strEq rl ("home") then homeBranch dev
  else if strStarts rl ("input_text") then inputTextBranch reply dev
  else if strStarts rl ("swipe") || strStarts rl ("scroll") then swipeBranch reply W H dev
  else if strStarts rl ("long_press") then longPressBranch reply snap.elements W H dev
  else if strStarts rl ("search") then searchBranch reply snap.elements dev
  else if strStarts rl ("tap_video") then tapVideoBranch reply snap.elements dev
  else if strStarts rl ("select_tab") then selectTabBranch reply snap.elements dev
  else if strEq rl ("open_comments") then openCommentsBranch snap.elements dev
  else if strEq rl ("close_comments") then closeCommentsBranch snap.elements dev
  else ⟨[], [], false⟩

/-- One classify-and-dispatch step of the session loop on a model reply
(already reduced to its first line): action replies go through the dispatch
chain behind an `Action:` announcement, anything else is conversational
output echoed verbatim with no device call. -/
def runReply (reply : String) (snap : Snapshot) (installed : List String)
    (dev : Device) (W H : Int) : ExecResult :=
  if isActionReply reply then
    ⟨(dispatchAction reply snap installed dev W H).trace,
     ("Action: " ++ reply) :: (dispatchAction reply snap installed dev W H).prints,
     (dispatchAction reply snap installed dev W H).crashed⟩
  else ⟨[], [reply], false⟩

/-- The reduced app registry of `test-command.py`. -/
def TEST_APP_PACKAGES : List (String × String) := [
  ("tiktok", "com.ss.android.ugc.trill"),
  ("facebook", "com.facebook.katana"),
  ("zalo", "com.zing.zalo"),
  ("settings", "com.android.settings"),
  ("youtube", "com.google.android.youtube")]

/-- `find_app_package` of `test-command.py`: exact then substring match,
with no installed-package filtering at all. -/
def testCmdFindAppPackage (appName : String) : Option String :=
  let q := pyStrip (pyLower appName)
  match pyDictGet TEST_APP_PACKAGES q with
  | some pkg => some pkg
  | none =>
    TEST_APP_PACKAGES.findSome? (fun np =>
      if strContains np.1 q || strContains q np.1 then some np.2 else none)

/-- `do_search` of `test-command.py` (lines 40-89): same flow as the
interactive search, but with no surrounding try/except, so a device call
that raises crashes the process. -/
def doSearch (keyword : String) (elements : List UiElem) (dev : Device) : ExecResult :=
  match elements.find? isSearchAffordance with
  | none => ⟨[], ["Searching for: " ++ keyword, "Search button not found"], false⟩
  | some e =>
    if dev.tapOk e.getIndex then
      match (dev.states 0).elements.find? isEditTextField with
      | none =>
        ⟨[DevCall.tap e.getIndex, DevCall.getState],
         ["Searching for: " ++ keyword, "Opened search"], false⟩
      | some e2 =>
        if dev.inputTextAtOk keyword e2.getIndex true then
          match (dev.states 1).elements.find? (isSuggestionFor keyword) with
          | some se =>
            if dev.tapOk se.getIndex then
              ⟨[DevCall.tap e.getIndex, DevCall.getState,
                DevCall.inputTextAt keyword e2.getIndex true, DevCall.getState,
                DevCall.tap se.getIndex],
               ["Searching for: " ++ keyword, "Opened search", "Typed: " ++ keyword,
                "Selected: " ++ se.getText], false⟩
            else
              ⟨[DevCall.tap e.getIndex, DevCall.getState,
                DevCall.inputTextAt keyword e2.getIndex true, DevCall.getState,
                DevCall.tap se.getIndex], [], true⟩
          | none =>
            match (dev.states 1).elements.find? isSubmitSearchButton with
            | some sb =>
              if dev.tapOk sb.getIndex then
                ⟨[DevCall.tap e.getIndex, DevCall.getState,
                  DevCall.inputTextAt keyword e2.getIndex true, DevCall.getState,
                  DevCall.tap sb.getIndex],
                 ["Searching for: " ++ keyword, "Opened search", "Typed: " ++ keyword,
                  "Tapped search button"], false⟩
              else
                ⟨[DevCall.tap e.getIndex, DevCall.getState,
                  DevCall.inputTextAt keyword e2.getIndex true, DevCall.getState,
                  DevCall.tap sb.getIndex], [], true⟩
            | none =>
              ⟨[DevCall.tap e.getIndex, DevCall.getState,
                DevCall.inputTextAt keyword e2.getIndex true, DevCall.getState],
               ["Searching for: " ++ keyword, "Opened search", "Typed: " ++ keyword], false⟩
        else
          ⟨[DevCall.tap e.getIndex, DevCall.getState,
            DevCall.inputTextAt keyword e2.getIndex true], [], true⟩
    else ⟨[DevCall.tap e.getIndex], [], true⟩

/-- The single-command dispatch of `test-command.py` (lines 161-205).
Contrary to the interactive loop, the `tap` branch has no try/except:
`int(reply.split()[1])` on a malformed or missing argument raises an
uncaught exception and the process dies. -/
def testCmdDispatch (reply : String) (elements : List UiElem) (dev : Device)
    (W H : Int) : ExecResult :=
  let rl := pyLower reply
  if strStarts rl ("open_app") then
    let appName := argOf reply
    match testCmdFindAppPackage appName with
    | some pkg =>
      if dev.startAppOk pkg then ⟨[DevCall.startApp pkg], ["Done"], false⟩
      else ⟨[DevCall.startApp pkg], [], true⟩
    | none => ⟨[], ["App not found: " ++ appName], false⟩
  else if strStarts rl ("tap") then
    match (pySplitWs reply).get? 1 with
    | none => ⟨[], [], true⟩
    | some w =>
      match parseIntPy w with
      | none => ⟨[], [], true⟩
      | some i =>
        if dev.tapOk i then ⟨[DevCall.tap i], ["Done"], false⟩
        else ⟨[DevCall.tap i], [], true⟩
  else if strEq rl ("back") then
    if dev.backOk then ⟨[DevCall.back], ["Pressed back"], false⟩
    else ⟨[DevCall.back], [], true⟩
  else if strEq rl ("home") then
    if dev.pressKeyOk 3 then ⟨[DevCall.pressKey 3], ["Pressed home"], false⟩
    else ⟨[DevCall.pressKey 3], [], true⟩
  else if strContains rl ("swipe") then
    let cx := W / 2
    let cy := H / 2
    let dist := H / 3
    if strContains rl ("up") then
      if dev.swipeOk cx (cy + dist) cx (cy - dist) 300 then
        ⟨[DevCall.swipe cx (cy + dist) cx (cy - dist) 300], ["Swiped up"], false⟩
      else ⟨[DevCall.swipe cx (cy + dist) cx (cy - dist) 300], [], true⟩
    else if strContains rl ("down") then
      if dev.swipeOk cx (cy - dist) cx (cy + dist) 300 then
        ⟨[DevCall.swipe cx (cy - dist) cx (cy + dist) 300], ["Swiped down"], false⟩
      else ⟨[DevCall.swipe cx (cy - dist) cx (cy + dist) 300], [], true⟩
    else ⟨[], [], false⟩
  else if strStarts rl ("search") then
    let keyword := argOf reply
    if strEq keyword ("") then ⟨[], ["No keyword provided"], false⟩
    else doSearch keyword elements dev
  else ⟨[], ["Response: " ++ reply], false⟩

/-- A snapshot element list with a single video thumbnail carrying
element-supplied index 7 (used to exercise the tap_video path). -/
def c1Els : List UiElem :=
  [{ index := some 7, resourceId := some ("abc_sq_1"), className := some ("FrameLayout") }]

/-- A device whose back key raises. -/
def devBackFail : Device := { devOk with backOk := false }

/-- Two elements with known coordinates and element-supplied indices that
differ from their sequence positions (used for the long-press claims). -/
def c10Els : List UiElem :=
  [{ index := some 99, x := some 100, y := some 200 },
   { index := some 98, x := some 300, y := some 444 }]

/-- A search-affordance element (localized text, image class), index 11. -/
def affEl : UiElem :=
  { index := some 11, text := some ("Tìm kiếm"), className := some ("ImageView") }

/-- A text-input element, index 22. -/
def editEl : UiElem :=
  { index := some 22, className := some ("android.widget.EditText") }

/-- A suggestion element whose text contains the keyword `cats`, index 33. -/
def sugEl : UiElem :=
  { index := some 33, text := some ("cats funny"), className := some ("com.x.TextLayoutView") }

/-- A localized submit/search button, index 44. -/
def subEl : UiElem :=
  { index := some 44, text := some ("Tìm kiếm"), className := some ("Button") }

/-- Scripted device for the search flow: first re-fetch shows the edit
field, second shows the matching suggestion. -/
def c3Dev : Device := allOkDev (fun n => if n = 0 then ⟨"", [editEl]⟩ else ⟨"", [sugEl]⟩)

/-- Scripted device for the search fallback: second re-fetch has no
suggestion, only a submit button. -/
def c3DevNoSug : Device := allOkDev (fun n => if n = 0 then ⟨"", [editEl]⟩ else ⟨"", [subEl]⟩)

theorem strEq_iff {a b : String} : strEq a b = true ↔ a = b := by
  cases a
  cases b
  simp only [strEq, beq_iff_eq]
  exact ⟨fun h => h ▸ rfl, fun h => by injection h⟩

theorem mem_pyListContains {l : List String} {a : String} (h : a ∈ l) :
    pyListContains l a = true := by
  simp only [pyListContains, List.any_eq_true]
  exact ⟨a, h, strEq_iff.mpr rfl⟩

theorem pyListContains_mem {l : List String} {a : String} (h : pyListContains l a = true) :
    a ∈ l := by
  simp only [pyListContains, List.any_eq_true] at h
  obtain ⟨x, hx, hxa⟩ := h
  exact (strEq_iff.mp hxa) ▸ hx

theorem registry_key_normal : ∀ kp ∈ APP_PACKAGES, pyStrip (pyLower kp.1) = kp.1 := by decide

theorem registry_lookup_self : ∀ kp ∈ APP_PACKAGES, pyDictGet APP_PACKAGES kp.1 = some kp.2 := by
  decide

theorem resolveStep2_mem {q : String} {installed : List String} {p : String}
    (hie : installed.isEmpty = false) (h : resolveStep2 q installed = some p) :
    p ∈ installed := by
  obtain ⟨np, hmem, hf⟩ := List.exists_of_findSome?_eq_some h
  split at hf
  · next hcond =>
    simp only [hie, Bool.false_or, Bool.and_eq_true] at hcond
    cases hf
    exact pyListContains_mem hcond.2
  · exact Option.noConfusion hf

theorem resolveStep3_mem {q : String} {installed : List String} {p : String}
    (h : resolveStep3 q installed = some p) : p ∈ installed := by
  obtain ⟨pkg, hmem, hf⟩ := List.exists_of_findSome?_eq_some h
  split at hf
  · cases hf
    exact hmem
  · exact Option.noConfusion hf

/-- Claim C1 (code bug evidence): on the reply `tap_video 1`, the dispatch
chain of `chat-phone.py` executes the plain `tap` branch — it issues a
device tap on element 1 and reports a plain tap — even though the snapshot
holds a video thumbnail whose element-supplied index is 7, which the
dedicated (unreachable) `tap_video` branch would have tapped.  The claim
that the `tap` prefix check never shadows `tap_video` is therefore false of
the code: the check `reply_lower.startswith("tap")` at line 333 captures
every `tap_video` reply before line 448 is reached. -/
theorem c1_tap_video_shadowed_by_tap :
    runReply ("tap_video 1") ⟨"", c1Els⟩ [] devOk 1080 2400 =
      ⟨[DevCall.tap 1], [("Action: tap_video 1"), ("Tapped element 1")], false⟩ ∧
    tapVideoBranch ("tap_video 1") c1Els devOk =
      ⟨[DevCall.tap 7], [("Tapped video 1 (index 7)")], false⟩ ∧
    [DevCall.tap 1] ≠ [DevCall.tap 7] :=
  ⟨rfl, rfl, by decide⟩

/-- Claim C2 (counterexample): a device-backend fault in the `back` branch is
not caught anywhere — the dispatch step crashes, terminating the session
loop, contradicting the claim that every collaborator fault is caught at the
point of use for every action kind. -/
theorem c2_counterexample_back_fault_crashes :
    (runReply ("back") emptySnap [] devBackFail 1080 2400).crashed = true := rfl

/-- Claim C2 (amended): device faults are caught inside the `open_app` and
`search` branches, which therefore never crash the loop for any reply,
snapshot or device behaviour; but a device fault in the `back` branch (and
likewise the other unguarded branches) escapes and terminates the session. -/
theorem c2_amended_fault_containment :
    (∀ reply currentApp installed dev,
       (openAppBranch reply currentApp installed dev).crashed = false) ∧
    (∀ reply elements dev,
       (searchBranch reply elements dev).crashed = false) ∧
    (runReply ("back") emptySnap [] devBackFail 1080 2400).crashed = true :=
  ⟨fun _ _ _ _ => rfl, fun _ _ _ => rfl, rfl⟩

/-- Claim C5 (counterexample): in the single-command test harness
(`test-command.py`), the reply `tap abc` reaches the unguarded
`int(reply.split()[1])` and the process crashes with an uncaught ValueError,
with no invalid-command notice — contradicting the claim that malformed
numeric arguments never raise an unhandled exception in the test harness. -/
theorem c5_counterexample_harness_crash :
    testCmdDispatch ("tap abc") [] devOk 1080 2400 = ⟨[], [], true⟩ := rfl

/-- Claim C5 (amended): in the interactive loop the malformed-argument paths
of the `tap` and `long_press` branches always yield an invalid-command
notice, no device call, and no crash (a malformed `tap_video` reply lands in
the `tap` branch, whose notice it receives); in the test harness the same
reply crashes uncaught. -/
theorem c5_amended_malformed_arguments :
    (∀ reply dev,
       ((pySplitWs reply)[1]? = none ∨
        (∃ w, (pySplitWs reply)[1]? = some w ∧ parseIntPy w = none)) →
       tapBranch reply dev = ⟨[], [("Invalid tap command")], false⟩) ∧
    (∀ reply elements W H dev,
       ((pySplitWs reply)[1]? = none ∨
        (∃ w, (pySplitWs reply)[1]? = some w ∧ parseIntPy w = none)) →
       longPressBranch reply elements W H dev =
         ⟨[], [("Invalid long_press command")], false⟩) ∧
    (runReply ("tap abc") emptySnap [] devOk 1080 2400 =
       ⟨[], [("Action: tap abc"), ("Invalid tap command")], false⟩) ∧
    (runReply ("tap_video 1x") emptySnap [] devOk 1080 2400 =
       ⟨[], [("Action: tap_video 1x"), ("Invalid tap command")], false⟩) ∧
    testCmdDispatch ("tap abc") [] devOk 1080 2400 = ⟨[], [], true⟩ := by
  refine ⟨?_, ?_, rfl, rfl, rfl⟩
  · intro reply dev h
    rcases h with h | ⟨w, hw, hp⟩
    · simp [tapBranch, h]
    · simp [tapBranch, hw, hp]
  · intro reply elements W H dev h
    rcases h with h | ⟨w, hw, hp⟩
    · simp [longPressBranch, h]
    · simp [longPressBranch, hw, hp]

/-- Claim C5 witness: the amended theorem applied to the concrete malformed
reply `tap abc`. -/
theorem c5_witness_tap_abc :
    tapBranch ("tap abc") devOk = ⟨[], [("Invalid tap command")], false⟩ :=
  c5_amended_malformed_arguments.1 ("tap abc") devOk (Or.inr ⟨"abc", rfl, rfl⟩)

/-- Claim C6 (counterexample): on a 1080×2400 screen, `swipe left` issues a
horizontal gesture of half-length `SCREEN_HEIGHT // 3 = 800` — from
(1340,1200) to (-260,1200) — not one third of the screen width (which would
run from (900,1200) to (180,1200)); the claim that horizontal gestures use
one third of the screen width is false of the code. -/
theorem c6_counterexample_horizontal_distance :
    (runReply ("swipe left") emptySnap [] devOk 1080 2400).trace =
      [DevCall.swipe 1340 1200 (-260) 1200 300] ∧
    [DevCall.swipe 1340 1200 (-260) 1200 300] ≠ [DevCall.swipe 900 1200 180 1200 300] :=
  ⟨rfl, by decide⟩

/-- Claim C6 (amended): for a 1080×2400 screen, `swipe up` issues exactly one
gesture from (540,2000) to (540,400) over 300 ms and `swipe down` the exact
reverse; `swipe left` and `swipe right` issue horizontal gestures whose
distance is also one third of the screen HEIGHT (800, the same `distance`
variable), with the same 300 ms duration; an unrecognized direction token is
a reported failure with no device call and no crash. -/
theorem c6_amended_swipe_geometry :
    runReply ("swipe up") emptySnap [] devOk 1080 2400 =
      ⟨[DevCall.swipe 540 2000 540 400 300], [("Action: swipe up"), ("Swiped up")], false⟩ ∧
    runReply ("swipe down") emptySnap [] devOk 1080 2400 =
      ⟨[DevCall.swipe 540 400 540 2000 300], [("Action: swipe down"), ("Swiped down")], false⟩ ∧
    runReply ("swipe left") emptySnap [] devOk 1080 2400 =
      ⟨[DevCall.swipe 1340 1200 (-260) 1200 300],
       [("Action: swipe left"), ("Swiped left")], false⟩ ∧
    runReply ("swipe right") emptySnap [] devOk 1080 2400 =
      ⟨[DevCall.swipe (-260) 1200 1340 1200 300],
       [("Action: swipe right"), ("Swiped right")], false⟩ ∧
    runReply ("swipe diagonal") emptySnap [] devOk 1080 2400 =
      ⟨[], [("Action: swipe diagonal"), ("Unknown swipe direction")], false⟩ :=
  ⟨rfl, rfl, rfl, rfl, rfl⟩

/-- Claim C7: whenever an `open_app` reply's argument resolves to a package
that is contained in the current app identifier of the snapshot, the
dispatch step issues no device call at all (in particular no `start_app`)
and reports the app as already open. -/
theorem c7_open_app_idempotent (reply : String) (snap : Snapshot)
    (installed : List String) (dev : Device) (W H : Int) (pkg : String)
    (hpre : strStarts (pyLower reply) ("open_app") = true)
    (hfind : find_app_package (argOf reply) installed = some pkg)
    (hin : strContains snap.currentApp pkg = true) :
    runReply reply snap installed dev W H =
      ⟨[], [("Action: " ++ reply), ("Already in " ++ argOf reply ++ " (" ++ pkg ++ ")")],
       false⟩ := by
  have hact : isActionReply reply = true := by
    simp [isActionReply, actionKeywords, hpre]
  simp [runReply, hact, dispatchAction, hpre, openAppBranch, openAppCore, hfind, hin]

/-- Claim C7 witness: `open_app tiktok` while the current app identifier is
the TikTok package is a pure report, with an empty device trace. -/
theorem c7_witness_tiktok :
    runReply ("open_app tiktok") ⟨"com.ss.android.ugc.trill", []⟩ [] devOk 1080 2400 =
      ⟨[], [("Action: open_app tiktok"), ("Already in tiktok (com.ss.android.ugc.trill)")],
       false⟩ :=
  c7_open_app_idempotent ("open_app tiktok") ⟨"com.ss.android.ugc.trill", []⟩ [] devOk
    1080 2400 ("com.ss.android.ugc.trill") rfl rfl rfl

/-- Claim C8: a reply whose lower-cased text starts with none of the fixed
action keyword tokens is conversational: the dispatch step issues no device
call, does not crash, and surfaces the reply text verbatim as the only
output line. -/
theorem c8_unrecognized_is_conversational (reply : String) (snap : Snapshot)
    (installed : List String) (dev : Device) (W H : Int)
    (h : ∀ kw ∈ actionKeywords, strStarts (pyLower reply) kw = false) :
    runReply reply snap installed dev W H = ⟨[], [reply], false⟩ := by
  have hna : isActionReply reply = false := by
    simp only [isActionReply, List.any_eq_false]
    intro kw hkw
    simp [h kw hkw]
  simp [runReply, hna]

/-- Claim C8 witness: a plain English sentence is echoed verbatim with no
device call. -/
theorem c8_witness_plain_sentence :
    runReply ("I cannot do that directly.") emptySnap [] devOk 1080 2400 =
      ⟨[], [("I cannot do that directly.")], false⟩ :=
  c8_unrecognized_is_conversational ("I cannot do that directly.") emptySnap [] devOk
    1080 2400 (by decide)

/-- Claim C9: a query that lowers and strips to the empty string (the
`open_app` reply with no argument produces exactly this) resolves to the
package of the first registry entry, `com.ss.android.ugc.trill` for
`tiktok`, whenever the installed set is empty or contains that package: the
empty query is a substring of every registry key, so the partial-match loop
returns its first admissible entry and the resolver never reports a miss in
that case. -/
theorem c9_empty_query_resolves_to_first_entry (q : String) (installed : List String)
    (hq : pyStrip (pyLower q) = "")
    (hins : installed = [] ∨ ("com.ss.android.ugc.trill") ∈ installed) :
    find_app_package q installed = some ("com.ss.android.ugc.trill") := by
  have hdict : pyDictGet APP_PACKAGES ("") = none := rfl
  have hcontains : strContains ("tiktok") ("") = true := rfl
  rcases hins with rfl | hp
  · simp only [find_app_package, hq]
    rfl
  · have hmem := mem_pyListContains hp
    simp [find_app_package, hq, hdict, resolveStep2, APP_PACKAGES, List.findSome?_cons,
      hcontains, hmem]
    rfl

/-- Claim C9 witness: the literally empty query with no installed filter. -/
theorem c9_witness_empty_query :
    find_app_package ("") [] = some ("com.ss.android.ugc.trill") :=
  c9_empty_query_resolves_to_first_entry ("") [] rfl (Or.inl rfl)

/-- Claim C10: in the `long_press` branch the bounds guard is only
`index < len(elements)`, so a parsed negative index `k` with `|k|` at most
the element count passes the guard and the long press is executed at the
coordinates of the element at sequence position `len(elements) + k` (Python
negative indexing), looked up by sequence position rather than by the
element-supplied index field; the element-not-found report occurs exactly
when `k ≥ len(elements)`, while a negative `k` below `-len(elements)` is an
IndexError caught as an invalid-command notice. -/
theorem c10_long_press_negative_index (reply : String) (elements : List UiElem)
    (W H : Int) (w : String) (k : Int)
    (h1 : (pySplitWs reply)[1]? = some w)
    (h2 : parseIntPy w = some k) :
    (∀ e, k < 0 → 0 ≤ (elements.length : Int) + k →
       elements[((elements.length : Int) + k).toNat]? = some e →
       longPressBranch reply elements W H devOk =
         ⟨[DevCall.swipe (e.x.getD (W / 2)) (e.y.getD (H / 2)) (e.x.getD (W / 2))
             (e.y.getD (H / 2)) 1500],
          [("Long pressed element " ++ toString k)], false⟩) ∧
    ((elements.length : Int) ≤ k →
       longPressBranch reply elements W H devOk =
         ⟨[], [("Element " ++ toString k ++ " not found")], false⟩) ∧
    (k < 0 → (elements.length : Int) + k < 0 →
       longPressBranch reply elements W H devOk =
         ⟨[], [("Invalid long_press command")], false⟩) ∧
    (∀ e, 0 ≤ k → k < (elements.length : Int) → elements[k.toNat]? = some e →
       longPressBranch reply elements W H devOk =
         ⟨[DevCall.swipe (e.x.getD (W / 2)) (e.y.getD (H / 2)) (e.x.getD (W / 2))
             (e.y.getD (H / 2)) 1500],
          [("Long pressed element " ++ toString k)], false⟩) := by
  refine ⟨?_, ?_, ?_, ?_⟩
  · intro e hk hge hget
    have hlt : k < (elements.length : Int) := by omega
    have hnn : ¬ (0 ≤ k) := by omega
    simp [longPressBranch, h1, h2, pyGet, hlt, hnn, hge, hget, devOk, allOkDev]
  · intro hle
    have hnlt : ¬ (k < (elements.length : Int)) := by omega
    simp [longPressBranch, h1, h2, hnlt]
  · intro hk hneg
    have hlt : k < (elements.length : Int) := by omega
    have hnn : ¬ (0 ≤ k) := by omega
    have hnn2 : ¬ (0 ≤ (elements.length : Int) + k) := by omega
    simp [longPressBranch, h1, h2, pyGet, hlt, hnn, hnn2]
  · intro e hnn hlt hget
    simp [longPressBranch, h1, h2, pyGet, hlt, hnn, hget, devOk, allOkDev]

/-- Claim C10 witness: `long_press -1` over two elements long-presses at the
coordinates (300,444) of the last element (sequence position 1, whose
element-supplied index field is 98, not 1). -/
theorem c10_witness_minus_one :
    longPressBranch ("long_press -1") c10Els 1080 2400 devOk =
      ⟨[DevCall.swipe 300 444 300 444 1500], [("Long pressed element -1")], false⟩ :=
  (c10_long_press_negative_index ("long_press -1") c10Els 1080 2400 ("-1") (-1)
      rfl rfl).1
    { index := some 98, x := some 300, y := some 444 } (by decide) (by decide) rfl

/-- Claim C3: the search flow proceeds in exactly the claimed order.  With no
search affordance on screen it reports the missing search button and issues
no device call.  Otherwise it taps the first affordance, re-fetches the
snapshot, types the keyword clear-before-type into the first text-input
field, re-fetches again, and taps the first suggestion whose text contains
the keyword and whose class indicates a text layout, reporting the
selection; when no such suggestion exists it falls through to tapping the
localized submit/search button when one is present. -/
theorem c3_search_flow_order (keyword : String) (elements : List UiElem) (dev : Device) :
    (elements.find? isSearchAffordance = none →
       searchCore keyword elements dev = ([], [("Search button not found")])) ∧
    (∀ e e2 se,
       elements.find? isSearchAffordance = some e →
       dev.tapOk e.getIndex = true →
       (dev.states 0).elements.find? isEditTextField = some e2 →
       dev.inputTextAtOk keyword e2.getIndex true = true →
       (dev.states 1).elements.find? (isSuggestionFor keyword) = some se →
       dev.tapOk se.getIndex = true →
       searchCore keyword elements dev =
         ([DevCall.tap e.getIndex, DevCall.getState,
           DevCall.inputTextAt keyword e2.getIndex true, DevCall.getState,
           DevCall.tap se.getIndex],
          [("Opened search"), ("Typed: " ++ keyword), ("Selected: " ++ se.getText)])) ∧
    (∀ e e2 sb,
       elements.find? isSearchAffordance = some e →
       dev.tapOk e.getIndex = true →
       (dev.states 0).elements.find? isEditTextField = some e2 →
       dev.inputTextAtOk keyword e2.getIndex true = true →
       (dev.states 1).elements.find? (isSuggestionFor keyword) = none →
       (dev.states 1).elements.find? isSubmitSearchButton = some sb →
       dev.tapOk sb.getIndex = true →
       searchCore keyword elements dev =
         ([DevCall.tap e.getIndex, DevCall.getState,
           DevCall.inputTextAt keyword e2.getIndex true, DevCall.getState,
           DevCall.tap sb.getIndex],
          [("Opened search"), ("Typed: " ++ keyword), ("Tapped search button")])) := by
  refine ⟨?_, ?_, ?_⟩
  · intro h
    simp [searchCore, h]
  · intro e e2 se h1 h2 h3 h4 h5 h6
    simp [searchCore, h1, h2, h3, h4, h5, h6]
  · intro e e2 sb h1 h2 h3 h4 h5 h6 h7
    simp [searchCore, h1, h2, h3, h4, h5, h6, h7]

/-- Claim C3 witness: the scripted scenario of the spec — one affordance,
then one edit field, then one matching suggestion — taps affordance (11),
types, and taps the suggestion (33), in that order, reporting success. -/
theorem c3_witness_scripted :
    searchCore ("cats") [affEl] c3Dev =
      ([DevCall.tap 11, DevCall.getState, DevCall.inputTextAt ("cats") 22 true,
        DevCall.getState, DevCall.tap 33],
       [("Opened search"), ("Typed: cats"), ("Selected: cats funny")]) :=
  (c3_search_flow_order ("cats") [affEl] c3Dev).2.1 affEl editEl sugEl rfl rfl rfl rfl rfl rfl

/-- Claim C4 (counterexample): for the registry key `youtube` (mapped to the
YouTube package) and the non-empty installed set holding only the YouTube
Music package — which does not contain the mapped package — the resolver
does not return no result as claimed: the partial-match step matches the
later registry entry `youtube music` (the query is a substring of that key)
and returns the YouTube Music package. -/
theorem c4_counterexample_youtube :
    pyDictGet APP_PACKAGES ("youtube") = some ("com.google.android.youtube") ∧
    find_app_package ("youtube") [("com.google.android.apps.youtube.music")] =
      some ("com.google.android.apps.youtube.music") ∧
    find_app_package ("youtube") [("com.google.android.apps.youtube.music")] ≠ none :=
  ⟨rfl, rfl, by decide⟩

/-- Claim C4 (amended): for every registry key, `resolve(exact key)` returns
its mapped package when the installed set is empty or contains it; when the
installed set is non-empty and excludes the mapped package, the exact-match
step rejects it and the result is whatever the substring fallbacks produce —
never the excluded package itself (any package returned against a non-empty
installed set belongs to that set), but possibly a different installed
package rather than no result. -/
theorem c4_amended_exact_resolution :
    (∀ k p installed, (k, p) ∈ APP_PACKAGES → (installed = [] ∨ p ∈ installed) →
       find_app_package k installed = some p) ∧
    (∀ q installed p, installed ≠ [] → find_app_package q installed = some p →
       p ∈ installed) := by
  constructor
  · intro k p installed hmem hins
    have hnorm := registry_key_normal (k, p) hmem
    have hlk := registry_lookup_self (k, p) hmem
    simp only at hnorm hlk
    rcases hins with rfl | hp
    · simp [find_app_package, hnorm, hlk]
    · simp [find_app_package, hnorm, hlk, mem_pyListContains hp]
  · intro q installed p hne heq
    have hie : installed.isEmpty = false := by
      cases installed
      · exact absurd rfl hne
      · rfl
    simp only [find_app_package] at heq
    cases hlk : pyDictGet APP_PACKAGES (pyStrip (pyLower q)) with
    | none =>
      rw [hlk] at heq
      cases hs2 : resolveStep2 (pyStrip (pyLower q)) installed with
      | none =>
        rw [hs2] at heq
        exact resolveStep3_mem heq
      | some pkg2 =>
        rw [hs2] at heq
        cases heq
        exact resolveStep2_mem hie hs2
    | some pkg =>
      rw [hlk] at heq
      simp only [hie, Bool.false_or] at heq
      cases hc : pyListContains installed pkg with
      | true =>
        rw [hc] at heq
        simp only [if_pos] at heq
        cases heq
        exact pyListContains_mem hc
      | false =>
        rw [hc] at heq
        simp only [Bool.false_eq_true, if_false] at heq
        cases hs2 : resolveStep2 (pyStrip (pyLower q)) installed with
        | none =>
          rw [hs2] at heq
          exact resolveStep3_mem heq
        | some pkg2 =>
          rw [hs2] at heq
          cases heq
          exact resolveStep2_mem hie hs2

/-- Claim C4 witness: the amended theorem applied to the first registry
entry with an empty installed set. -/
theorem c4_witness_tiktok_exact :
    find_app_package ("tiktok") [] = some ("com.ss.android.ugc.trill") :=
  c4_amended_exact_resolution.1 ("tiktok") ("com.ss.android.ugc.trill") []
    (by decide) (Or.inl rfl)
